import Mathlib

/-!
Verification of the app-minio-api HTTP façade.

This file shallowly embeds the request-handling code of the repository:
the correlation-ID middleware and JSON response helpers (internal/utils),
the MinIO file handlers (internal/api/handlers/minio.go), the R2 presign
handler (internal/api/handlers/r2_handler.go), the bearer-token
authentication middleware (internal/api/middleware/auth_middleware.go),
the CORS middlewares (cmd/server/main.go and internal/api/routes/routes.go)
and the two responseWriter wrappers (middleware/auth_middleware.go and
middleware/logger.go).  External collaborators (the object store, the
auth-verification service, the system clock, the UUID generator) are
modelled as explicit inputs.
-/

namespace MinioApi

/-! ## JSON values and Go values, as marshalled by encoding/json -/

/-- A JSON document, the image of Go's encoding/json marshalling. -/
inductive Json where
  | null
  | str (s : String)
  | num (n : Int)
  | bool (b : Bool)
  | arr (elems : List Json)
  | obj (fields : List (String × Json))

/-- Look up a top-level field of a JSON object. -/
def Json.field (j : Json) (k : String) : Option Json :=
  match j with
  | .obj fs => fs.lookup k
  | _ => none

/-- A Go value as stored in an interface-typed position.  `slice none`
models a nil Go slice (which is distinct from the empty slice
`slice (some [])` : encoding/json marshals the former to null and the
latter to an empty array). -/
inductive GoValue where
  | str (s : String)
  | int (n : Int)
  | slice (elems : Option (List GoValue))
  | strMap (fields : List (String × GoValue))

/-- Bytewise (codepoint) lexicographic comparison of key strings, the
order encoding/json sorts Go map keys in; all keys in this codebase are
ASCII, where codepoint order and byte order agree. -/
def charListLE : List Char → List Char → Bool
  | [], _ => true
  | _ :: _, [] => false
  | a :: as, b :: bs =>
    if a.toNat < b.toNat then true
    else if b.toNat < a.toNat then false
    else charListLE as bs

/-- Key order for JSON object fields. -/
def keyLE (a b : String) : Bool :=
  charListLE a.data b.data

/-- Insert a key/value pair into a key-sorted list (bytewise key order),
used to model encoding/json's sorting of Go map keys. -/
def insertByKey (p : String × Json) : List (String × Json) → List (String × Json)
  | [] => [p]
  | q :: qs => if keyLE p.1 q.1 then p :: q :: qs else q :: insertByKey p qs

/-- Sort object fields by key, as encoding/json does for Go maps. -/
def sortFields : List (String × Json) → List (String × Json)
  | [] => []
  | p :: ps => insertByKey p (sortFields ps)

mutual

/-- encoding/json marshalling of a Go value: nil slices become null,
non-nil slices become arrays, and map keys are emitted in sorted order. -/
def marshal : GoValue → Json
  | .str s => .str s
  | .int n => .num n
  | .slice none => .null
  | .slice (some l) => .arr (marshalList l)
  | .strMap fs => .obj (sortFields (marshalFields fs))

/-- Marshal each element of a list of Go values. -/
def marshalList : List GoValue → List Json
  | [] => []
  | v :: vs => marshal v :: marshalList vs

/-- Marshal the values of a field list. -/
def marshalFields : List (String × GoValue) → List (String × Json)
  | [] => []
  | (k, v) :: fs => (k, marshal v) :: marshalFields fs

end

/-! ## Correlation-ID middleware and response helpers (internal/utils) -/

/-- Outcome of `c.Get("CorrelationID")` followed by the unchecked type
assertion `.(string)` in utils.SendJSONWithCorrelationID /
SendErrorWithCorrelationID: `some s` when the stored context value is the
string s; `none` (a panic) when the key is absent — `c.Get` then yields
nil and `nil.(string)` panics — or holds a non-string. -/
def assertString : Option GoValue → Option String
  | some (.str s) => some s
  | _ => none

/-- Marshalled body of utils.StandardResponse.  CorrelationID is always
present; Data and Error are interface-typed fields tagged omitempty, so
each is omitted exactly when the interface itself is nil (modelled by
`none`); a non-nil interface holding a nil slice is kept and marshals to
null.  Struct fields are emitted in declaration order. -/
def standardResponseJson (cid : String) (data err : Option GoValue) : Json :=
  Json.obj ([("correlation_id", Json.str cid)]
    ++ (match data with | none => [] | some v => [("data", marshal v)])
    ++ (match err with | none => [] | some v => [("error", marshal v)]))

/-- utils.SendJSONWithCorrelationID: reads the CorrelationID context value,
asserts it to string (`.error ()` models the panic when that fails) and
writes the status together with a StandardResponse body. -/
def sendJSONWithCorrelationID (ctxVal : Option GoValue) (status : Nat)
    (data : Option GoValue) : Except Unit (Nat × Json) :=
  match assertString ctxVal with
  | none => .error ()
  | some cid => .ok (status, standardResponseJson cid data none)

/-- utils.SendErrorWithCorrelationID: like SendJSONWithCorrelationID but
fills the Error field with the message instead of Data. -/
def sendErrorWithCorrelationID (ctxVal : Option GoValue) (status : Nat)
    (errMsg : String) : Except Unit (Nat × Json) :=
  match assertString ctxVal with
  | none => .error ()
  | some cid => .ok (status, standardResponseJson cid none (some (.str errMsg)))

/-- utils.SendError simply delegates to SendErrorWithCorrelationID. -/
def sendError (ctxVal : Option GoValue) (status : Nat) (msg : String) :
    Except Unit (Nat × Json) :=
  sendErrorWithCorrelationID ctxVal status msg

/-- The request-scoped state left behind by utils.CorrelationIDMiddleware:
the value stored under the CorrelationID context key and the
X-Correlation-ID response header. -/
structure CorrelationState where
  ctxVal : Option GoValue
  respHeader : Option String

/-- utils.CorrelationIDMiddleware: takes the incoming X-Correlation-ID
header value ("" when absent) and the string a fresh uuid.New() would
produce, keeps the incoming value when non-empty and otherwise uses the
fresh UUID, then stores it in the context and the response header. -/
def correlationIDMiddleware (incoming : String) (fresh : String) :
    CorrelationState :=
  let cid := if incoming = "" then fresh else incoming
  ⟨some (.str cid), some cid⟩

/-! ## The external object store and the MinIO handlers
(internal/api/handlers/minio.go) -/

/-- An object held by the external store: its content bytes, the content
type recorded at upload, and its size. -/
structure StoredObject where
  content : List Nat
  contentType : String
  size : Int

/-- Modelled from the spec: the external S3-compatible object store, which
"holds uploaded files under named buckets" and owns all persistent state.
A store maps a bucket name and an object key to the object stored there,
if any. -/
def Store := String → String → Option StoredObject

/-- Effect of a successful minio-go PutObject on the external store. -/
def Store.put (s : Store) (bucket key : String) (o : StoredObject) : Store :=
  fun b k => if b = bucket ∧ k = key then some o else s b k

/-- Effect of a successful minio-go RemoveObject on the external store. -/
def Store.remove (s : Store) (bucket key : String) : Store :=
  fun b k => if b = bucket ∧ k = key then none else s b k

/-- One entry of the minio-go ListObjects channel: either an object
description or an error carried in the ObjectInfo.Err field. -/
structure ObjInfo where
  key : String
  size : Int
  lastModified : String
  contentType : String

/-- One bucket as reported by minio-go ListBuckets; creationDate stands
for bucket.CreationDate.Format(time.RFC3339). -/
structure BucketInfo where
  name : String
  creationDate : String

/-- Per-request behaviour of the external MinIO service: which client
calls fail, what the ListObjects channel yields for the configured
bucket, and what ListBuckets returns. -/
structure MinioEnv where
  putErr : Bool
  removeErr : Bool
  getObjectErr : Bool
  statErr : Option String
  listing : List (Except String ObjInfo)
  bucketsRes : Except String (List BucketInfo)

/-- An HTTP response as a handler leaves it: the status code, an optional
JSON body, the response headers set by the handler, and an optional
streamed binary body. -/
structure HttpResponse where
  status : Nat
  body : Option Json
  headers : List (String × String)
  stream : Option (List Nat)

/-- A response consisting only of a status and a JSON body. -/
def jsonResp (status : Nat) (body : Json) : HttpResponse :=
  ⟨status, some body, [], none⟩

/-- Send an error through utils.SendError, keeping the possible panic of
the correlation-ID assertion. -/
def sendErrorResp (ctxVal : Option GoValue) (status : Nat) (msg : String) :
    Except Unit HttpResponse :=
  (sendError ctxVal status msg).map (fun r => jsonResp r.1 r.2)

/-- Send data through utils.SendJSONWithCorrelationID, keeping the
possible panic of the correlation-ID assertion. -/
def sendJSONResp (ctxVal : Option GoValue) (status : Nat) (data : GoValue) :
    Except Unit HttpResponse :=
  (sendJSONWithCorrelationID ctxVal status (some data)).map
    (fun r => jsonResp r.1 r.2)

/-- Go's filepath.Ext scan: walk the path from its end; stop empty at a
path separator, and return the suffix from the last dot otherwise. -/
def extScan : List Char → List Char → String
  | [], _ => ""
  | c :: rest, acc =>
    if c = '/' then ""
    else if c = '.' then String.mk (c :: acc)
    else extScan rest (c :: acc)

/-- Go's filepath.Ext: the file name extension beginning at the final dot
of the final slash-separated element, "" when there is no dot. -/
def filepathExt (path : String) : String :=
  extScan path.data.reverse []

/-- The multipart part named "file" of an upload request. -/
structure MultipartFile where
  filename : String
  contentTypeHeader : String
  size : Int
  content : List Nat

/-- Content-type selection in MinioHandler.UploadFile: keep the part's
Content-Type header when present, otherwise map the filename extension
(.jpg/.jpeg, .png, .pdf, .txt, .mp4 have dedicated types, everything else
falls back to application/octet-stream). -/
def uploadContentType (objectName headerCT : String) : String :=
  if headerCT = "" then
    let ext := filepathExt objectName
    if ext = ".jpg" ∨ ext = ".jpeg" then "image/jpeg"
    else if ext = ".png" then "image/png"
    else if ext = ".pdf" then "application/pdf"
    else if ext = ".txt" then "text/plain"
    else if ext = ".mp4" then "video/mp4"
    else "application/octet-stream"
  else headerCT

/-- MinioHandler.UploadFile: a missing or unreadable "file" form part is a
400; otherwise the file is stored via PutObject under the configured
bucket and the original filename, with the selected content type; a
PutObject error is a 500; on success the 200 body reports the filename,
the size and bucket returned in the client's UploadInfo. -/
def minioUploadFile (cfgBucket : String) (ctxVal : Option GoValue)
    (form : Option MultipartFile) (env : MinioEnv) (s : Store) :
    Store × Except Unit HttpResponse :=
  match form with
  | none => (s, sendErrorResp ctxVal 400 "Failed to get file")
  | some f =>
    let objectName := f.filename
    let contentType := uploadContentType objectName f.contentTypeHeader
    if env.putErr then (s, sendErrorResp ctxVal 500 "Failed to upload file")
    else
      (Store.put s cfgBucket objectName ⟨f.content, contentType, f.size⟩,
       sendJSONResp ctxVal 200 (GoValue.strMap
         [("message", .str "File uploaded successfully"),
          ("filename", .str objectName),
          ("size", .int f.size),
          ("bucketName", .str cfgBucket)]))

/-- The Go value built for one listed object in MinioHandler.ListFiles. -/
def objInfoGoValue (o : ObjInfo) : GoValue :=
  .strMap [("name", .str o.key), ("size", .int o.size),
           ("lastModified", .str o.lastModified),
           ("contentType", .str o.contentType)]

/-- Go's append: appending to a nil slice allocates a fresh non-nil
slice, so the result is never nil. -/
def goAppend (s : Option (List GoValue)) (v : GoValue) :
    Option (List GoValue) :=
  match s with
  | none => some [v]
  | some l => some (l ++ [v])

/-- The range loop of MinioHandler.ListFiles: starting from the
uninitialized (nil) objects slice, fold the channel items, stopping with
the first error. -/
def listFilesLoop (acc : Option (List GoValue)) :
    List (Except String ObjInfo) → Except String (Option (List GoValue))
  | [] => .ok acc
  | .error e :: _ => .error e
  | .ok o :: rest => listFilesLoop (goAppend acc (objInfoGoValue o)) rest

/-- MinioHandler.ListFiles: iterate the ListObjects channel for the
configured bucket (contents supplied by the environment); an error item
is a 500, otherwise the accumulated slice — still nil when the channel
was empty — is sent with status 200. -/
def minioListFiles (ctxVal : Option GoValue) (env : MinioEnv) (s : Store) :
    Store × Except Unit HttpResponse :=
  match listFilesLoop none env.listing with
  | .error _ => (s, sendErrorResp ctxVal 500 "Failed to list files")
  | .ok objects => (s, sendJSONResp ctxVal 200 (GoValue.slice objects))

/-- MinioHandler.GetFile: empty filename is a 400 (plain gin body); a
GetObject error is a 500; a Stat error is a 404 exactly when its minio
error code is NoSuchKey and a 500 otherwise — a Stat of an absent object
surfaces as a NoSuchKey error from the external store; on success the
object is streamed with no-cache headers, a Content-Disposition
attachment with the filename, and the Content-Type and Content-Length of
the stat. -/
def minioGetFile (cfgBucket : String) (ctxVal : Option GoValue)
    (filename : String) (env : MinioEnv) (s : Store) :
    Store × Except Unit HttpResponse :=
  if filename = "" then
    (s, .ok (jsonResp 400 (Json.obj [("error", Json.str "Filename is required")])))
  else if env.getObjectErr then
    (s, sendErrorResp ctxVal 500 "Failed to get file")
  else
    match env.statErr with
    | some code =>
      if code = "NoSuchKey" then (s, sendErrorResp ctxVal 404 "File not found")
      else (s, sendErrorResp ctxVal 500 "Failed to get file info")
    | none =>
      match s cfgBucket filename with
      | none => (s, sendErrorResp ctxVal 404 "File not found")
      | some o =>
        (s, .ok
          { status := 200
            body := none
            headers :=
              [("Cache-Control", "no-store, no-cache, must-revalidate, max-age=0"),
               ("Pragma", "no-cache"),
               ("Expires", "0"),
               ("Content-Disposition",
                 "attachment; filename=\"" ++ filename ++ "\""),
               ("Content-Type", o.contentType),
               ("Content-Length", toString o.size)]
            stream := some o.content })

/-- MinioHandler.DeleteFile: empty filename is a 400 (plain gin body); a
RemoveObject error is a 500 and leaves the store untouched; otherwise the
object named by the request is removed from the configured bucket and a
200 reports the filename. -/
def minioDeleteFile (cfgBucket : String) (ctxVal : Option GoValue)
    (filename : String) (env : MinioEnv) (s : Store) :
    Store × Except Unit HttpResponse :=
  if filename = "" then
    (s, .ok (jsonResp 400 (Json.obj [("error", Json.str "Filename is required")])))
  else if env.removeErr then
    (s, sendErrorResp ctxVal 500 "Failed to delete file")
  else
    (Store.remove s cfgBucket filename,
     sendJSONResp ctxVal 200 (GoValue.strMap
       [("message", .str "File deleted successfully"),
        ("filename", .str filename)]))

/-- The Go value built for one bucket in MinioHandler.ListBuckets. -/
def bucketGoValue (b : BucketInfo) : GoValue :=
  .strMap [("name", .str b.name), ("creationDate", .str b.creationDate)]

/-- The result-building loop of MinioHandler.ListBuckets, again starting
from a nil slice. -/
def listBucketsLoop (acc : Option (List GoValue)) :
    List BucketInfo → Option (List GoValue)
  | [] => acc
  | b :: rest => listBucketsLoop (goAppend acc (bucketGoValue b)) rest

/-- MinioHandler.ListBuckets: a ListBuckets client error is a 500; when
the client reports no buckets an explicit empty (non-nil) slice is sent
with 200; otherwise the formatted bucket list is sent with 200. -/
def minioListBuckets (ctxVal : Option GoValue) (env : MinioEnv) (s : Store) :
    Store × Except Unit HttpResponse :=
  match env.bucketsRes with
  | .error _ => (s, sendErrorResp ctxVal 500 "Failed to list buckets")
  | .ok buckets =>
    if buckets.length = 0 then
      (s, sendJSONResp ctxVal 200 (GoValue.slice (some [])))
    else
      (s, sendJSONResp ctxVal 200 (GoValue.slice (listBucketsLoop none buckets)))

/-! ## Bearer-token authentication middleware
(internal/api/middleware/auth_middleware.go) -/

/-- Go's strings.Split(s, " "): cut s at every single space, keeping
empty fields; the empty string yields the one-element list [""]. -/
def splitOnSpaceAux : List Char → List Char → List String
  | [], acc => [String.mk acc.reverse]
  | c :: rest, acc =>
    if c = ' ' then String.mk acc.reverse :: splitOnSpaceAux rest []
    else splitOnSpaceAux rest (c :: acc)

/-- strings.Split(s, " ") over a whole string. -/
def splitOnSpace (s : String) : List String :=
  splitOnSpaceAux s.data []

/-- Go's strings.EqualFold restricted to the comparisons the middleware
performs: the reference string "Bearer" is ASCII, and no non-ASCII
character simple-case-folds onto its letters, so ASCII lowercasing is an
exact model. -/
def eqFold (a b : String) : Bool :=
  a.data.map Char.toLower == b.data.map Char.toLower

/-- What happens when the middleware POSTs to the auth service's verify
endpoint: either the round trip fails in transport, or the service
responds with some status code. -/
inductive AuthSvcResult where
  | transportErr
  | respond (status : Nat)

/-- The observable outcome of AuthMiddleware.Authenticate on one request:
`status = none` means c.Next() ran (the request reached the inner
handler), `some n` means the middleware aborted with status n;
calledAuth records whether the verify request was sent. -/
structure AuthOutcome where
  status : Option Nat
  calledAuth : Bool

/-- Token extraction of AuthMiddleware.Authenticate: split the
Authorization header on spaces; with exactly two parts whose first
compares EqualFold-equal to "Bearer" the second part is the token, with
exactly one part that part is the token, and any other shape is
rejected. -/
def extractToken (authHeader : String) : Option String :=
  if (splitOnSpace authHeader).length = 2 ∧
      eqFold ((splitOnSpace authHeader).headD "") "Bearer" then
    some ((splitOnSpace authHeader).getD 1 "")
  else if (splitOnSpace authHeader).length = 1 then
    some ((splitOnSpace authHeader).headD "")
  else
    none

/-- AuthMiddleware.Authenticate: an empty Authorization header, an
unextractable token or an extracted empty token abort with 401 before any
auth-service call; a failure of http.NewRequest (reqErr) aborts with 500
before the call; a transport error of the verify round trip aborts with
500; a non-200 verify response aborts with 401; a 200 verify response
lets the request through. -/
def authenticate (authHeader : String) (reqErr : Bool)
    (svc : AuthSvcResult) : AuthOutcome :=
  if authHeader = "" then ⟨some 401, false⟩
  else
    match extractToken authHeader with
    | none => ⟨some 401, false⟩
    | some token =>
      if token = "" then ⟨some 401, false⟩
      else if reqErr then ⟨some 500, false⟩
      else
        match svc with
        | .transportErr => ⟨some 500, true⟩
        | .respond code => if code = 200 then ⟨none, true⟩ else ⟨some 401, true⟩

/-! ## Presigned-URL generation (internal/api/handlers/r2_handler.go) -/

/-- The JSON body of a presigned-URL request.  A field absent from the
request JSON is its Go zero value, so a missing bucket_name or object_key
appears as the empty string. -/
structure GeneratePresignedURLRequest where
  bucketName : String
  objectKey : String
  expiresIn : Int

/-- gin's ShouldBindJSON with binding required on bucket_name and
object_key: a syntactically bad body (`none`) or an empty required field
fails the bind. -/
def bindPresignReq (body : Option GeneratePresignedURLRequest) :
    Option GeneratePresignedURLRequest :=
  match body with
  | none => none
  | some r => if r.bucketName = "" ∨ r.objectKey = "" then none else some r

/-- External inputs of R2Handler.GeneratePresignedURL: whether the
presign client errors, the URL it returns, and the Unix time at which
time.Now() is read for the expires_at computation. -/
structure PresignEnv where
  presignErr : Bool
  presignURL : String
  now : Int

/-- The PresignedURLResponse payload. -/
structure PresignedURLResponse where
  url : String
  method : String
  expiresAt : Int
  headers : List (String × String)

/-- Outcome of R2Handler.GeneratePresignedURL; success records the
expiry duration (in seconds) actually passed to PresignPutObject. -/
inductive PresignOutcome where
  | badRequest
  | internalError
  | success (usedExpires : Int) (resp : PresignedURLResponse)

/-- The HTTP status each presign outcome is written with. -/
def presignStatus : PresignOutcome → Nat
  | .badRequest => 400
  | .internalError => 500
  | .success _ _ => 200

/-- R2Handler.GeneratePresignedURL: a failed bind is a 400; a
non-positive expires_in is replaced by 3600 before presigning; the
presign call uses exactly the (possibly defaulted) expires_in seconds; a
presign error is a 500; on success the response carries the URL, method
PUT, expires_at = now + expires_in, and the fixed cache-control header
map. -/
def generatePresignedURL (body : Option GeneratePresignedURLRequest)
    (env : PresignEnv) : PresignOutcome :=
  match bindPresignReq body with
  | none => .badRequest
  | some req =>
    let expiresIn := if req.expiresIn ≤ 0 then 3600 else req.expiresIn
    if env.presignErr then .internalError
    else
      .success expiresIn
        { url := env.presignURL
          method := "PUT"
          expiresAt := env.now + expiresIn
          headers :=
            [("Cache-Control", "no-store, no-cache, must-revalidate, max-age=0"),
             ("Pragma", "no-cache"),
             ("Expires", "0")] }

/-- Wrapper used for the frame claim: presigned-URL generation never
touches the MinIO object store (the handler only talks to the R2 presign
client), so the store passes through unchanged. -/
def presignStep (body : Option GeneratePresignedURLRequest)
    (env : PresignEnv) (s : Store) : Store × PresignOutcome :=
  (s, generatePresignedURL body env)

/-! ## CORS middlewares (cmd/server/main.go and
internal/api/routes/routes.go) -/

/-- Response headers as a partial map; setting overrides. -/
def Headers := String → Option String

/-- The empty header map. -/
def noHeaders : Headers := fun _ => none

/-- c.Writer.Header().Set -/
def hset (hs : Headers) (k v : String) : Headers :=
  fun q => if q = k then some v else hs q

/-- Whether a middleware aborted the chain (with a status) or called
c.Next(). -/
inductive MwStep where
  | abort (status : Nat)
  | next

/-- The CORS middleware registered in main(): in dev environments it sets
permissive headers and short-circuits OPTIONS with 204; otherwise it only
serves the single allowed origin, aborting any other origin with 403 and
no CORS headers. -/
def mainCorsMiddleware (env origin method : String) (hs : Headers) :
    Headers × MwStep :=
  if env = "development" ∨ env = "dev" then
    let hs := hset (hset (hset (hset hs
      "Access-Control-Allow-Origin" "*")
      "Access-Control-Allow-Methods" "*")
      "Access-Control-Allow-Headers" "*")
      "Access-Control-Allow-Credentials" "true"
    if method = "OPTIONS" then (hs, .abort 204) else (hs, .next)
  else if origin = "https://drive-two.junistudio.org" then
    let hs := hset (hset (hset (hset hs
      "Access-Control-Allow-Origin" origin)
      "Access-Control-Allow-Methods" "GET, POST, PUT, DELETE, PATCH, OPTIONS")
      "Access-Control-Allow-Headers"
        "Origin, Content-Type, Content-Length, Accept-Encoding, X-CSRF-Token, Authorization, X-Requested-With, X-Request-Id, X-Correlation-Id")
      "Access-Control-Allow-Credentials" "true"
    if method = "OPTIONS" then (hs, .abort 204) else (hs, .next)
  else
    (hs, .abort 403)

/-- routes.addCorsHeaders: unconditionally set the four CORS headers,
then short-circuit OPTIONS with 204. -/
def addCorsHeaders (method : String) (hs : Headers) : Headers × MwStep :=
  let hs := hset (hset (hset (hset hs
    "Access-Control-Allow-Origin" "*")
    "Access-Control-Allow-Methods" "POST, GET, OPTIONS, PUT, DELETE")
    "Access-Control-Allow-Headers"
      "Content-Type, Content-Length, Accept-Encoding, X-CSRF-Token, Authorization, accept, origin")
    "Access-Control-Allow-Credentials" "true"
  if method = "OPTIONS" then (hs, .abort 204) else (hs, .next)

/-- What the middleware chain leaves of a request: the response headers,
the status of the aborting middleware if one aborted, and whether a
route handler was reached. -/
structure RouterOutcome where
  headers : Headers
  abortedStatus : Option Nat
  handlerReached : Bool

/-- The CORS-relevant part of the router pipeline, in registration order:
main()'s CORS middleware first, then routes.addCorsHeaders, then — if
neither aborted — the route handler. -/
def routerPipeline (env origin method : String) : RouterOutcome :=
  match mainCorsMiddleware env origin method noHeaders with
  | (h1, .abort st) => ⟨h1, some st, false⟩
  | (h1, .next) =>
    match addCorsHeaders method h1 with
    | (h2, .abort st) => ⟨h2, some st, false⟩
    | (h2, .next) => ⟨h2, none, true⟩

/-! ## The two responseWriter wrappers
(middleware/auth_middleware.go and middleware/logger.go) -/

/-- A call forwarded to the wrapped gin.ResponseWriter. -/
inductive RWEvent where
  | header (code : Nat)
  | write (len : Nat)

/-- State of a responseWriter wrapper: the recorded status (0 until
WriteHeader is called), the byte count and buffered write lengths, and
the calls forwarded to the underlying writer in order. -/
structure RWState where
  status : Nat
  size : Nat
  buffered : List Nat
  forwarded : List RWEvent

/-- A freshly constructed wrapper: zero status, empty buffer. -/
def rwInit : RWState := ⟨0, 0, [], []⟩

/-- Write of the responseWriter in auth_middleware.go: always buffer and
count, but forward to the underlying writer only while the recorded
status is unset or in 200..299. -/
def authRWWrite (w : RWState) (len : Nat) : RWState :=
  let w := { w with buffered := w.buffered ++ [len], size := w.size + len }
  if w.status = 0 ∨ (200 ≤ w.status ∧ w.status < 300) then
    { w with forwarded := w.forwarded ++ [.write len] }
  else w

/-- WriteHeader of the responseWriter in auth_middleware.go: record the
code, and forward it only when it lies in 200..299. -/
def authRWWriteHeader (w : RWState) (code : Nat) : RWState :=
  let w := { w with status := code }
  if 200 ≤ code ∧ code < 300 then
    { w with forwarded := w.forwarded ++ [.header code] }
  else w

/-- Status of both wrappers: 200 while WriteHeader was never called,
the recorded code afterwards. -/
def rwStatus (w : RWState) : Nat :=
  if w.status = 0 then 200 else w.status

/-- Write of the responseWriter in logger.go: it only buffers and counts;
the body is never forwarded to the underlying writer. -/
def loggerRWWrite (w : RWState) (len : Nat) : RWState :=
  { w with buffered := w.buffered ++ [len], size := w.size + len }

/-- WriteHeader of the responseWriter in logger.go: record the code and
forward it unconditionally. -/
def loggerRWWriteHeader (w : RWState) (code : Nat) : RWState :=
  { w with status := code, forwarded := w.forwarded ++ [.header code] }

/-- Convenience: read field k of the data object inside a handler
response body. -/
def respDataField (r : HttpResponse) (k : String) : Option Json :=
  (r.body.bind (fun b => b.field "data")).bind (fun d => d.field k)

/-! ## Theorems -/

/-- C3: a non-empty incoming X-Correlation-ID header is stored unchanged
in the request context and echoed unchanged in the X-Correlation-ID
response header; an empty or absent header is replaced in both places by
the freshly generated UUID; and every body produced through
SendJSONWithCorrelationID or SendErrorWithCorrelationID carries a
correlation_id field equal to the context value. -/
theorem correlation_id_propagation (incoming fresh : String) (status : Nat)
    (data : GoValue) (msg : String) :
    ((incoming ≠ "" →
       (correlationIDMiddleware incoming fresh).ctxVal = some (.str incoming) ∧
       (correlationIDMiddleware incoming fresh).respHeader = some incoming) ∧
     (incoming = "" →
       (correlationIDMiddleware incoming fresh).ctxVal = some (.str fresh) ∧
       (correlationIDMiddleware incoming fresh).respHeader = some fresh)) ∧
    (∀ cid, (correlationIDMiddleware incoming fresh).ctxVal = some (.str cid) →
      (sendJSONWithCorrelationID (correlationIDMiddleware incoming fresh).ctxVal
          status (some data)).map (fun r => r.2.field "correlation_id")
        = .ok (some (.str cid)) ∧
      (sendErrorWithCorrelationID (correlationIDMiddleware incoming fresh).ctxVal
          status msg).map (fun r => r.2.field "correlation_id")
        = .ok (some (.str cid))) := by
  refine ⟨⟨?_, ?_⟩, ?_⟩
  · intro hne
    simp [correlationIDMiddleware, hne]
  · intro he
    simp [correlationIDMiddleware, he]
  · intro cid hc
    have hc' : (if incoming = "" then fresh else incoming) = cid := by
      simpa [correlationIDMiddleware] using hc
    constructor
    · simp [correlationIDMiddleware, hc', sendJSONWithCorrelationID,
            assertString, standardResponseJson, Json.field, Except.map,
            List.lookup]
    · simp [correlationIDMiddleware, hc', sendErrorWithCorrelationID,
            assertString, standardResponseJson, Json.field, Except.map,
            List.lookup]

/-- C3 witness at a concrete request. -/
theorem correlation_id_propagation_witness :
    (correlationIDMiddleware "abc" "u1").ctxVal = some (.str "abc") ∧
    (sendJSONWithCorrelationID (correlationIDMiddleware "abc" "u1").ctxVal
        200 (some (.int 3))).map (fun r => r.2.field "correlation_id")
      = .ok (some (.str "abc")) :=
  ⟨((correlation_id_propagation "abc" "u1" 200 (.int 3) "m").1.1 (by decide)).1,
   ((correlation_id_propagation "abc" "u1" 200 (.int 3) "m").2 "abc"
      (((correlation_id_propagation "abc" "u1" 200 (.int 3) "m").1.1
        (by decide)).1)).1⟩

/-- C8: on a request where the correlation-ID middleware ran, the context
holds a string and the unchecked `.(string)` assertion in
SendJSONWithCorrelationID / SendErrorWithCorrelationID cannot panic; on a
request where it did not run, c.Get yields nil, the assertion panics, and
so does every handler path reaching the helpers (here: a successful
delete, and a file listing over an empty channel). -/
theorem correlation_assertion_safety (incoming fresh msg : String)
    (status : Nat) (data : GoValue) (cfgBucket filename : String)
    (env : MinioEnv) (s : Store) :
    ((∃ r, sendJSONWithCorrelationID
        (correlationIDMiddleware incoming fresh).ctxVal status (some data) = .ok r) ∧
     (∃ r, sendErrorWithCorrelationID
        (correlationIDMiddleware incoming fresh).ctxVal status msg = .ok r)) ∧
    (sendJSONWithCorrelationID none status (some data) = .error () ∧
     sendErrorWithCorrelationID none status msg = .error ()) ∧
    (filename ≠ "" → env.removeErr = false →
      (minioDeleteFile cfgBucket none filename env s).2 = .error ()) ∧
    (env.listing = [] → (minioListFiles none env s).2 = .error ()) := by
  refine ⟨⟨?_, ?_⟩, ⟨?_, ?_⟩, ?_, ?_⟩
  · exact ⟨_, rfl⟩
  · exact ⟨_, rfl⟩
  · simp [sendJSONWithCorrelationID, assertString]
  · simp [sendErrorWithCorrelationID, assertString]
  · intro hfn hrm
    simp [minioDeleteFile, hfn, hrm, sendJSONResp, sendJSONWithCorrelationID,
          assertString, Except.map]
  · intro hl
    simp [minioListFiles, hl, listFilesLoop, sendJSONResp,
          sendJSONWithCorrelationID, assertString, Except.map]

/-- C8 witness at concrete requests. -/
theorem correlation_assertion_safety_witness :
    sendJSONWithCorrelationID none 200 (some (.int 1)) = .error () ∧
    (minioDeleteFile "b" none "f.txt"
      ⟨false, false, false, none, [], .ok []⟩ (fun _ _ => none)).2 = .error () :=
  ⟨(correlation_assertion_safety "a" "u" "m" 200 (.int 1) "b" "f.txt"
      ⟨false, false, false, none, [], .ok []⟩ (fun _ _ => none)).2.1.1,
   (correlation_assertion_safety "a" "u" "m" 200 (.int 1) "b" "f.txt"
      ⟨false, false, false, none, [], .ok []⟩ (fun _ _ => none)).2.2.1
     (by decide) rfl⟩

/-- C9: on success over an empty collection the two list endpoints
disagree in shape: ListFiles over an empty channel sends status 200 with
a data field that is JSON null (the nil accumulating slice), while
ListBuckets with no buckets sends status 200 with an explicit empty JSON
array. -/
theorem list_endpoints_empty_shape (cid : String) (env : MinioEnv)
    (s : Store) :
    (env.listing = [] →
      (minioListFiles (some (.str cid)) env s).2 =
        .ok (jsonResp 200
          (Json.obj [("correlation_id", Json.str cid), ("data", Json.null)]))) ∧
    (env.bucketsRes = .ok [] →
      (minioListBuckets (some (.str cid)) env s).2 =
        .ok (jsonResp 200
          (Json.obj [("correlation_id", Json.str cid), ("data", Json.arr [])]))) := by
  constructor
  · intro hl
    simp [minioListFiles, hl, listFilesLoop, sendJSONResp,
          sendJSONWithCorrelationID, assertString, standardResponseJson,
          marshal, Except.map, jsonResp]
  · intro hb
    simp [minioListBuckets, hb, sendJSONResp, sendJSONWithCorrelationID,
          assertString, standardResponseJson, marshal, marshalList,
          Except.map, jsonResp]

/-- C9 witness at a concrete empty store view. -/
theorem list_endpoints_empty_shape_witness :
    (minioListFiles (some (.str "c")) ⟨false, false, false, none, [], .ok []⟩
        (fun _ _ => none)).2 =
      .ok (jsonResp 200
        (Json.obj [("correlation_id", Json.str "c"), ("data", Json.null)])) ∧
    (minioListBuckets (some (.str "c")) ⟨false, false, false, none, [], .ok []⟩
        (fun _ _ => none)).2 =
      .ok (jsonResp 200
        (Json.obj [("correlation_id", Json.str "c"), ("data", Json.arr [])])) :=
  ⟨(list_endpoints_empty_shape "c" ⟨false, false, false, none, [], .ok []⟩
      (fun _ _ => none)).1 rfl,
   (list_endpoints_empty_shape "c" ⟨false, false, false, none, [], .ok []⟩
      (fun _ _ => none)).2 rfl⟩

/-- C2: GetFile rejects an empty filename with 400; a GetObject error is
a 500; a Stat error with minio code NoSuchKey — in particular a Stat of
an object absent from the store — is a 404, and any other Stat error a
500; on success the object body is streamed with a Content-Disposition
attachment naming the file and the Content-Type and Content-Length of
its stat. -/
theorem getFile_spec (cfgBucket cid filename : String) (env : MinioEnv)
    (s : Store) :
    (filename = "" →
      (minioGetFile cfgBucket (some (.str cid)) filename env s).2 =
        .ok (jsonResp 400 (Json.obj [("error", Json.str "Filename is required")]))) ∧
    (filename ≠ "" → env.getObjectErr = true →
      ((minioGetFile cfgBucket (some (.str cid)) filename env s).2).map
        HttpResponse.status = .ok 500) ∧
    (filename ≠ "" → env.getObjectErr = false → env.statErr = some "NoSuchKey" →
      ((minioGetFile cfgBucket (some (.str cid)) filename env s).2).map
        HttpResponse.status = .ok 404) ∧
    (∀ code, filename ≠ "" → env.getObjectErr = false →
      env.statErr = some code → code ≠ "NoSuchKey" →
      ((minioGetFile cfgBucket (some (.str cid)) filename env s).2).map
        HttpResponse.status = .ok 500) ∧
    (filename ≠ "" → env.getObjectErr = false → env.statErr = none →
      s cfgBucket filename = none →
      ((minioGetFile cfgBucket (some (.str cid)) filename env s).2).map
        HttpResponse.status = .ok 404) ∧
    (∀ o, filename ≠ "" → env.getObjectErr = false → env.statErr = none →
      s cfgBucket filename = some o →
      (minioGetFile cfgBucket (some (.str cid)) filename env s).2 =
        .ok { status := 200
              body := none
              headers :=
                [("Cache-Control", "no-store, no-cache, must-revalidate, max-age=0"),
                 ("Pragma", "no-cache"),
                 ("Expires", "0"),
                 ("Content-Disposition",
                   "attachment; filename=\"" ++ filename ++ "\""),
                 ("Content-Type", o.contentType),
                 ("Content-Length", toString o.size)]
              stream := some o.content }) := by
  refine ⟨?_, ?_, ?_, ?_, ?_, ?_⟩
  · intro hf
    simp [minioGetFile, hf]
  · intro hf hg
    simp [minioGetFile, hf, hg, sendErrorResp, sendError,
          sendErrorWithCorrelationID, assertString, Except.map, jsonResp]
  · intro hf hg hst
    simp [minioGetFile, hf, hg, hst, sendErrorResp, sendError,
          sendErrorWithCorrelationID, assertString, Except.map, jsonResp]
  · intro code hf hg hst hc
    simp [minioGetFile, hf, hg, hst, hc, sendErrorResp, sendError,
          sendErrorWithCorrelationID, assertString, Except.map, jsonResp]
  · intro hf hg hst ho
    simp [minioGetFile, hf, hg, hst, ho, sendErrorResp, sendError,
          sendErrorWithCorrelationID, assertString, Except.map, jsonResp]
  · intro o hf hg hst ho
    simp [minioGetFile, hf, hg, hst, ho]

/-- C2 witness at a concrete stored object. -/
theorem getFile_spec_witness :
    (minioGetFile "b" (some (.str "c")) "f.txt"
        ⟨false, false, false, none, [], .ok []⟩
        (fun bk k => if bk = "b" ∧ k = "f.txt"
          then some ⟨[7, 8], "text/plain", 2⟩ else none)).2 =
      .ok { status := 200
            body := none
            headers :=
              [("Cache-Control", "no-store, no-cache, must-revalidate, max-age=0"),
               ("Pragma", "no-cache"),
               ("Expires", "0"),
               ("Content-Disposition", "attachment; filename=\"f.txt\""),
               ("Content-Type", "text/plain"),
               ("Content-Length", "2")]
            stream := some [7, 8] } :=
  (getFile_spec "b" "c" "f.txt" ⟨false, false, false, none, [], .ok []⟩
    (fun bk k => if bk = "b" ∧ k = "f.txt"
      then some ⟨[7, 8], "text/plain", 2⟩ else none)).2.2.2.2.2
    ⟨[7, 8], "text/plain", 2⟩ (by decide) rfl rfl rfl

/-- C4: UploadFile stores the file under the original multipart filename
in the configured bucket with the part's Content-Type when supplied and
the extension-derived type otherwise; the 200 body reports the filename,
the uploaded size and the bucket returned by the client; a missing file
part is a 400 and a PutObject error a 500 (both leaving the store
unchanged). -/
theorem uploadFile_spec (cfgBucket cid : String) (f : MultipartFile)
    (env : MinioEnv) (s : Store) :
    ((minioUploadFile cfgBucket (some (.str cid)) none env s).1 = s ∧
     ((minioUploadFile cfgBucket (some (.str cid)) none env s).2).map
       HttpResponse.status = .ok 400) ∧
    (env.putErr = true →
      (minioUploadFile cfgBucket (some (.str cid)) (some f) env s).1 = s ∧
      ((minioUploadFile cfgBucket (some (.str cid)) (some f) env s).2).map
        HttpResponse.status = .ok 500) ∧
    (env.putErr = false →
      (minioUploadFile cfgBucket (some (.str cid)) (some f) env s).1
          cfgBucket f.filename =
        some ⟨f.content, uploadContentType f.filename f.contentTypeHeader, f.size⟩ ∧
      ((minioUploadFile cfgBucket (some (.str cid)) (some f) env s).2).map
        HttpResponse.status = .ok 200 ∧
      ((minioUploadFile cfgBucket (some (.str cid)) (some f) env s).2).map
        (fun r => respDataField r "filename") = .ok (some (.str f.filename)) ∧
      ((minioUploadFile cfgBucket (some (.str cid)) (some f) env s).2).map
        (fun r => respDataField r "size") = .ok (some (.num f.size)) ∧
      ((minioUploadFile cfgBucket (some (.str cid)) (some f) env s).2).map
        (fun r => respDataField r "bucketName") = .ok (some (.str cfgBucket))) ∧
    (f.contentTypeHeader ≠ "" →
      uploadContentType f.filename f.contentTypeHeader = f.contentTypeHeader) ∧
    (∀ name,
      ((filepathExt name = ".jpg" ∨ filepathExt name = ".jpeg") →
        uploadContentType name "" = "image/jpeg") ∧
      (filepathExt name = ".png" → uploadContentType name "" = "image/png") ∧
      (filepathExt name = ".pdf" → uploadContentType name "" = "application/pdf") ∧
      (filepathExt name = ".txt" → uploadContentType name "" = "text/plain") ∧
      (filepathExt name = ".mp4" → uploadContentType name "" = "video/mp4") ∧
      (filepathExt name ∉ [".jpg", ".jpeg", ".png", ".pdf", ".txt", ".mp4"] →
        uploadContentType name "" = "application/octet-stream")) := by
  refine ⟨⟨?_, ?_⟩, ?_, ?_, ?_, ?_⟩
  · rfl
  · simp [minioUploadFile, sendErrorResp, sendError, sendErrorWithCorrelationID,
          assertString, Except.map, jsonResp]
  · intro hput
    simp [minioUploadFile, hput, sendErrorResp, sendError,
          sendErrorWithCorrelationID, assertString, Except.map, jsonResp]
  · intro hput
    refine ⟨?_, ?_, ?_, ?_, ?_⟩ <;>
      simp [minioUploadFile, hput, Store.put, sendJSONResp,
            sendJSONWithCorrelationID, assertString, Except.map, jsonResp,
            respDataField, Json.field, standardResponseJson, marshal,
            marshalFields, sortFields, insertByKey, keyLE, charListLE,
            List.lookup]
  · intro hct
    simp [uploadContentType, hct]
  · intro name
    refine ⟨?_, ?_, ?_, ?_, ?_, ?_⟩ <;> intro hext
    · rcases hext with h | h <;> simp [uploadContentType, h]
    · simp [uploadContentType, hext]
    · simp [uploadContentType, hext]
    · simp [uploadContentType, hext]
    · simp [uploadContentType, hext]
    · simp only [List.mem_cons, List.mem_singleton] at hext
      push_neg at hext
      obtain ⟨h1, h2, h3, h4, h5, h6⟩ := hext
      simp [uploadContentType, h1, h2, h3, h4, h5, h6]

/-- C4 witness at a concrete upload. -/
theorem uploadFile_spec_witness :
    (minioUploadFile "buck" (some (.str "c"))
        (some ⟨"pic.png", "", 4, [1, 2, 3, 4]⟩)
        ⟨false, false, false, none, [], .ok []⟩ (fun _ _ => none)).1
      "buck" "pic.png" = some ⟨[1, 2, 3, 4], "image/png", 4⟩ ∧
    uploadContentType "pic.png" "" = "image/png" :=
  ⟨((uploadFile_spec "buck" "c" ⟨"pic.png", "", 4, [1, 2, 3, 4]⟩
      ⟨false, false, false, none, [], .ok []⟩ (fun _ _ => none)).2.2.1 rfl).1,
   ((uploadFile_spec "buck" "c" ⟨"pic.png", "", 4, [1, 2, 3, 4]⟩
      ⟨false, false, false, none, [], .ok []⟩ (fun _ _ => none)).2.2.2.2
      "pic.png").2.1 (by decide)⟩

/-- C7: the handlers keep no service-local state — each is a pure
function of the configuration, the request and the external store — and
their store footprints are exactly as announced: ListFiles, GetFile,
ListBuckets and presigned-URL generation leave the store unchanged, while
UploadFile and DeleteFile change at most the object named by the request
inside the configured bucket. -/
theorem handlers_frame (cfgBucket : String) (v : Option GoValue)
    (f : MultipartFile) (body : Option GeneratePresignedURLRequest)
    (penv : PresignEnv) (fn : String) (env : MinioEnv) (s : Store) :
    ((minioListFiles v env s).1 = s) ∧
    ((minioGetFile cfgBucket v fn env s).1 = s) ∧
    ((minioListBuckets v env s).1 = s) ∧
    ((presignStep body penv s).1 = s) ∧
    (∀ b k, ¬(b = cfgBucket ∧ k = f.filename) →
      (minioUploadFile cfgBucket v (some f) env s).1 b k = s b k) ∧
    (∀ b k, ¬(b = cfgBucket ∧ k = fn) →
      (minioDeleteFile cfgBucket v fn env s).1 b k = s b k) := by
  refine ⟨?_, ?_, ?_, ?_, ?_, ?_⟩
  · cases h : listFilesLoop none env.listing <;> simp [minioListFiles, h]
  · by_cases hf : fn = ""
    · simp [minioGetFile, hf]
    · by_cases hg : env.getObjectErr
      · simp [minioGetFile, hf, hg]
      · cases hst : env.statErr with
        | some code =>
          by_cases hc : code = "NoSuchKey" <;>
            simp [minioGetFile, hf, hg, hst, hc]
        | none =>
          cases ho : s cfgBucket fn <;> simp [minioGetFile, hf, hg, hst, ho]
  · cases hb : env.bucketsRes with
    | error e => simp [minioListBuckets, hb]
    | ok buckets =>
      by_cases hlen : buckets.length = 0 <;> simp [minioListBuckets, hb, hlen]
  · rfl
  · intro b k hbk
    by_cases hput : env.putErr
    · simp [minioUploadFile, hput]
    · simp [minioUploadFile, hput, Store.put, hbk]
  · intro b k hbk
    by_cases hf : fn = ""
    · simp [minioDeleteFile, hf]
    · by_cases hrm : env.removeErr
      · simp [minioDeleteFile, hf, hrm]
      · simp [minioDeleteFile, hf, hrm, Store.remove, hbk]

/-- C7 witness: a concrete upload leaves an unrelated key untouched, and
a concrete listing leaves the store unchanged. -/
theorem handlers_frame_witness :
    (minioUploadFile "buck" (some (.str "c"))
        (some ⟨"a.txt", "text/plain", 1, [9]⟩)
        ⟨false, false, false, none, [], .ok []⟩ (fun _ _ => none)).1
      "buck" "other.txt" = none ∧
    (minioListFiles (some (.str "c")) ⟨false, false, false, none, [], .ok []⟩
      (fun _ _ => none)).1 = (fun _ _ => none) :=
  ⟨(handlers_frame "buck" (some (.str "c")) ⟨"a.txt", "text/plain", 1, [9]⟩
      none ⟨false, "", 0⟩ "x" ⟨false, false, false, none, [], .ok []⟩
      (fun _ _ => none)).2.2.2.2.1 "buck" "other.txt" (by decide),
   (handlers_frame "buck" (some (.str "c")) ⟨"a.txt", "text/plain", 1, [9]⟩
      none ⟨false, "", 0⟩ "x" ⟨false, false, false, none, [], .ok []⟩
      (fun _ _ => none)).1⟩

/-- C1: the authentication middleware lets a request through exactly when
a non-empty token was extracted and the auth service answered 200; a
missing Authorization header, a malformed one (two space-separated parts
not starting with a case-insensitive Bearer, or three or more parts) or
an empty extracted token are 401s issued without calling the auth
service; a transport error is a 500; a non-200 verify answer is a 401;
and the token is the second part of a two-part Bearer header, or the sole
part of a one-part header. -/
theorem authenticate_spec (h : String) (svc : AuthSvcResult) :
    (h = "" → authenticate h false svc = ⟨some 401, false⟩) ∧
    (3 ≤ (splitOnSpace h).length → authenticate h false svc = ⟨some 401, false⟩) ∧
    ((splitOnSpace h).length = 2 →
      eqFold ((splitOnSpace h).headD "") "Bearer" = false →
      authenticate h false svc = ⟨some 401, false⟩) ∧
    (extractToken h = some "" → authenticate h false svc = ⟨some 401, false⟩) ∧
    ((splitOnSpace h).length = 2 →
      eqFold ((splitOnSpace h).headD "") "Bearer" = true →
      extractToken h = some ((splitOnSpace h).getD 1 "")) ∧
    ((splitOnSpace h).length = 1 → extractToken h = some ((splitOnSpace h).headD "")) ∧
    (∀ t, extractToken h = some t → t ≠ "" → h ≠ "" →
      authenticate h false .transportErr = ⟨some 500, true⟩ ∧
      authenticate h false (.respond 200) = ⟨none, true⟩ ∧
      (∀ c, c ≠ 200 → authenticate h false (.respond c) = ⟨some 401, true⟩)) ∧
    ((authenticate h false svc).status = none ↔
      (h ≠ "" ∧ ∃ t, extractToken h = some t ∧ t ≠ "" ∧ svc = .respond 200)) := by
  refine ⟨?_, ?_, ?_, ?_, ?_, ?_, ?_, ?_⟩
  · intro he
    simp [authenticate, he]
  · intro hlen
    have he : h ≠ "" := by
      intro he
      rw [he] at hlen
      simp [splitOnSpace, splitOnSpaceAux] at hlen
    have hx : extractToken h = none := by
      simp only [extractToken]
      rw [if_neg, if_neg]
      · omega
      · rintro ⟨h2, -⟩
        omega
    simp [authenticate, he, hx]
  · intro hlen hfold
    have he : h ≠ "" := by
      intro he
      rw [he] at hlen
      simp [splitOnSpace, splitOnSpaceAux] at hlen
    have hx : extractToken h = none := by
      simp only [extractToken]
      rw [if_neg, if_neg]
      · omega
      · rintro ⟨-, hb⟩
        rw [hfold] at hb
        exact Bool.false_ne_true hb
    simp [authenticate, he, hx]
  · intro hx
    by_cases he : h = ""
    · simp [authenticate, he]
    · simp [authenticate, he, hx]
  · intro hlen hfold
    simp only [extractToken]
    rw [if_pos ⟨hlen, hfold⟩]
  · intro hlen
    have hne : ¬((splitOnSpace h).length = 2 ∧
        eqFold ((splitOnSpace h).headD "") "Bearer" = true) := by
      rintro ⟨h2, -⟩
      omega
    simp only [extractToken]
    rw [if_neg, if_pos hlen]
    simpa using hne
  · intro t hx ht he
    refine ⟨?_, ?_, ?_⟩
    · simp [authenticate, he, hx, ht]
    · simp [authenticate, he, hx, ht]
    · intro c hc
      simp [authenticate, he, hx, ht, hc]
  · constructor
    · intro hs
      by_cases he : h = ""
      · simp [authenticate, he] at hs
      · cases hx : extractToken h with
        | none => simp [authenticate, he, hx] at hs
        | some t =>
          by_cases ht : t = ""
          · rw [ht] at hx
            simp [authenticate, he, hx] at hs
          · cases svc with
            | transportErr => simp [authenticate, he, hx, ht] at hs
            | respond c =>
              by_cases hc : c = 200
              · exact ⟨he, t, rfl, ht, by rw [hc]⟩
              · simp [authenticate, he, hx, ht, hc] at hs
    · rintro ⟨he, t, hx, ht, hsvc⟩
      simp [authenticate, he, hx, ht, hsvc]

/-- C1 witness at concrete headers. -/
theorem authenticate_spec_witness :
    (authenticate "Bearer tok" false (.respond 200)).status = none ∧
    authenticate "a b c" false (.respond 200) = ⟨some 401, false⟩ :=
  ⟨(authenticate_spec "Bearer tok" (.respond 200)).2.2.2.2.2.2.2.mpr
     ⟨by decide, "tok", rfl, by decide, rfl⟩,
   (authenticate_spec "a b c" (.respond 200)).2.1 (by decide)⟩

/-- C5: a bind failure — a malformed body or an empty required
bucket_name / object_key — is a 400; a non-positive expires_in is
replaced by 3600 before presigning; the presign call uses exactly the
resulting expires_in seconds; the 200 response reports method PUT,
expires_at = issuing time + expires_in, and the fixed cache-control
header map; a presign error is a 500. -/
theorem presign_spec (body : Option GeneratePresignedURLRequest)
    (env : PresignEnv) :
    (body = none → generatePresignedURL body env = .badRequest) ∧
    (∀ r, body = some r → (r.bucketName = "" ∨ r.objectKey = "") →
      presignStatus (generatePresignedURL body env) = 400) ∧
    (∀ r, bindPresignReq body = some r → env.presignErr = false →
      (r.expiresIn ≤ 0 →
        generatePresignedURL body env = .success 3600
          ⟨env.presignURL, "PUT", env.now + 3600,
           [("Cache-Control", "no-store, no-cache, must-revalidate, max-age=0"),
            ("Pragma", "no-cache"), ("Expires", "0")]⟩) ∧
      (0 < r.expiresIn →
        generatePresignedURL body env = .success r.expiresIn
          ⟨env.presignURL, "PUT", env.now + r.expiresIn,
           [("Cache-Control", "no-store, no-cache, must-revalidate, max-age=0"),
            ("Pragma", "no-cache"), ("Expires", "0")]⟩)) ∧
    (∀ r, bindPresignReq body = some r → env.presignErr = true →
      presignStatus (generatePresignedURL body env) = 500) := by
  refine ⟨?_, ?_, ?_, ?_⟩
  · intro hb
    simp [generatePresignedURL, hb, bindPresignReq]
  · intro r hb hreq
    simp [generatePresignedURL, hb, bindPresignReq, hreq, presignStatus]
  · intro r hb herr
    constructor
    · intro hexp
      simp [generatePresignedURL, hb, herr, hexp]
    · intro hexp
      have hexp' : ¬(r.expiresIn ≤ 0) := by omega
      simp [generatePresignedURL, hb, herr, hexp']
  · intro r hb herr
    simp [generatePresignedURL, hb, herr, presignStatus]

/-- C5 witness at a concrete request with expires_in = 0 (defaulted to
3600). -/
theorem presign_spec_witness :
    generatePresignedURL (some ⟨"buck", "key", 0⟩) ⟨false, "https://u", 100⟩ =
      .success 3600
        ⟨"https://u", "PUT", 3700,
         [("Cache-Control", "no-store, no-cache, must-revalidate, max-age=0"),
          ("Pragma", "no-cache"), ("Expires", "0")]⟩ :=
  ((presign_spec (some ⟨"buck", "key", 0⟩) ⟨false, "https://u", 100⟩).2.2.1
    ⟨"buck", "key", 0⟩ rfl rfl).1 (by decide)

/-- C6 counterexample: in a non-dev environment a request whose Origin is
not allowlisted — here an OPTIONS request with an empty Origin — is
aborted by main()'s CORS middleware with 403 before routes.addCorsHeaders
runs, so the response carries no Access-Control-Allow-Origin header and
is not answered with 204, contrary to the claim that every response
carries the CORS headers and every OPTIONS request is answered 204. -/
theorem cors_claim_counterexample :
    (routerPipeline "production" "" "OPTIONS").headers
        "Access-Control-Allow-Origin" = none ∧
    (routerPipeline "production" "" "OPTIONS").abortedStatus = some 403 ∧
    (routerPipeline "production" "" "OPTIONS").handlerReached = false :=
  ⟨rfl, rfl, rfl⟩

/-- C6 amended: every request that main()'s CORS middleware lets past its
origin check (dev environment, or allowlisted origin) gets a response
carrying the four CORS headers, and among those every OPTIONS request is
answered 204 without reaching a handler; a non-dev request with a
non-allowlisted origin is instead aborted 403 with none of the CORS
headers; and no OPTIONS request ever reaches a route handler. -/
theorem cors_amended (env origin method : String) :
    ((env = "development" ∨ env = "dev" ∨
        origin = "https://drive-two.junistudio.org") →
      ((∃ v, (routerPipeline env origin method).headers
            "Access-Control-Allow-Origin" = some v) ∧
       (∃ v, (routerPipeline env origin method).headers
            "Access-Control-Allow-Methods" = some v) ∧
       (∃ v, (routerPipeline env origin method).headers
            "Access-Control-Allow-Headers" = some v) ∧
       (∃ v, (routerPipeline env origin method).headers
            "Access-Control-Allow-Credentials" = some v)) ∧
      (method = "OPTIONS" →
        (routerPipeline env origin method).abortedStatus = some 204 ∧
        (routerPipeline env origin method).handlerReached = false)) ∧
    (env ≠ "development" → env ≠ "dev" →
      origin ≠ "https://drive-two.junistudio.org" →
      (routerPipeline env origin method).abortedStatus = some 403 ∧
      (routerPipeline env origin method).headers
        "Access-Control-Allow-Origin" = none ∧
      (routerPipeline env origin method).handlerReached = false) ∧
    (method = "OPTIONS" →
      (routerPipeline env origin method).handlerReached = false) := by
  refine ⟨?_, ?_, ?_⟩
  · intro hdev
    by_cases hm : method = "OPTIONS"
    · subst hm
      by_cases he1 : env = "development"
      · subst he1
        exact ⟨⟨⟨"*", rfl⟩, ⟨"*", rfl⟩, ⟨"*", rfl⟩, ⟨"true", rfl⟩⟩,
               fun _ => ⟨rfl, rfl⟩⟩
      · by_cases he2 : env = "dev"
        · subst he2
          exact ⟨⟨⟨"*", rfl⟩, ⟨"*", rfl⟩, ⟨"*", rfl⟩, ⟨"true", rfl⟩⟩,
                 fun _ => ⟨rfl, rfl⟩⟩
        · have ho : origin = "https://drive-two.junistudio.org" := by tauto
          subst ho
          refine ⟨⟨?_, ?_, ?_, ?_⟩, fun _ => ⟨?_, ?_⟩⟩ <;>
            simp [routerPipeline, mainCorsMiddleware, addCorsHeaders,
                  he1, he2, hset, noHeaders]
    · by_cases he1 : env = "development"
      · subst he1
        refine ⟨⟨?_, ?_, ?_, ?_⟩, fun hm' => absurd hm' hm⟩ <;>
          simp [routerPipeline, mainCorsMiddleware, addCorsHeaders,
                hm, hset, noHeaders]
      · by_cases he2 : env = "dev"
        · subst he2
          refine ⟨⟨?_, ?_, ?_, ?_⟩, fun hm' => absurd hm' hm⟩ <;>
            simp [routerPipeline, mainCorsMiddleware, addCorsHeaders,
                  hm, hset, noHeaders]
        · have ho : origin = "https://drive-two.junistudio.org" := by tauto
          subst ho
          refine ⟨⟨?_, ?_, ?_, ?_⟩, fun hm' => absurd hm' hm⟩ <;>
            simp [routerPipeline, mainCorsMiddleware, addCorsHeaders,
                  he1, he2, hm, hset, noHeaders]
  · intro h1 h2 h3
    refine ⟨?_, ?_, ?_⟩ <;>
      simp [routerPipeline, mainCorsMiddleware, h1, h2, h3, noHeaders]
  · intro hm
    subst hm
    by_cases he1 : env = "development"
    · subst he1
      rfl
    · by_cases he2 : env = "dev"
      · subst he2
        rfl
      · by_cases ho : origin = "https://drive-two.junistudio.org"
        · subst ho
          simp [routerPipeline, mainCorsMiddleware, he1, he2, hset, noHeaders]
        · simp [routerPipeline, mainCorsMiddleware, he1, he2, ho, noHeaders]

/-- C6 amended, witness at a concrete dev-environment OPTIONS request. -/
theorem cors_amended_witness :
    (routerPipeline "dev" "" "OPTIONS").abortedStatus = some 204 ∧
    (routerPipeline "dev" "" "OPTIONS").handlerReached = false :=
  ((cors_amended "dev" "" "OPTIONS").1 (Or.inr (Or.inl rfl))).2 rfl

/-- C10 counterexample: the auth_middleware responseWriter does forward a
WriteHeader after a status outside 200-299 was recorded — recording 500
and then calling WriteHeader(204) forwards the 204 — contrary to the
claim that nothing is forwarded once a non-2xx status was recorded; and
the logger.go variant does not forward body Writes at all, contrary to
the claim that it forwards every Write. -/
theorem responseWriter_claim_counterexample :
    (authRWWriteHeader rwInit 500).status = 500 ∧
    (authRWWriteHeader (authRWWriteHeader rwInit 500) 204).forwarded
      = [RWEvent.header 204] ∧
    (loggerRWWrite rwInit 7).forwarded = [] :=
  ⟨rfl, rfl, rfl⟩

/-- C10 amended: the auth_middleware responseWriter forwards a
WriteHeader exactly when its code is in 200-299 (so a later 2xx
WriteHeader is forwarded even after a non-2xx status stood recorded, and
re-enables Write forwarding), and forwards a body Write exactly while the
recorded status is unset or in 200-299; its Status reports 200 whenever
WriteHeader was never called; the logger.go variant forwards every
WriteHeader unconditionally but never forwards body Writes (it only
buffers them). -/
theorem responseWriter_amended (w : RWState) (code len : Nat) :
    (¬(200 ≤ code ∧ code < 300) →
      (authRWWriteHeader w code).forwarded = w.forwarded) ∧
    (w.status ≠ 0 → ¬(200 ≤ w.status ∧ w.status < 300) →
      (authRWWrite w len).forwarded = w.forwarded) ∧
    (200 ≤ code → code < 300 →
      (authRWWriteHeader w code).forwarded = w.forwarded ++ [.header code]) ∧
    (w.status = 0 ∨ (200 ≤ w.status ∧ w.status < 300) →
      (authRWWrite w len).forwarded = w.forwarded ++ [.write len]) ∧
    (w.status = 0 → rwStatus w = 200) ∧
    ((loggerRWWriteHeader w code).forwarded = w.forwarded ++ [.header code]) ∧
    ((loggerRWWrite w len).forwarded = w.forwarded) := by
  refine ⟨?_, ?_, ?_, ?_, ?_, ?_, ?_⟩
  · intro hc
    simp [authRWWriteHeader, hc]
  · intro h0 hc
    simp [authRWWrite, h0, hc]
  · intro h1 h2
    simp [authRWWriteHeader, h1, h2]
  · intro hc
    simp only [authRWWrite]
    rw [if_pos hc]
  · intro h0
    simp [rwStatus, h0]
  · rfl
  · rfl

/-- C10 amended, witness at concrete wrapper states. -/
theorem responseWriter_amended_witness :
    (authRWWriteHeader ⟨500, 0, [], []⟩ 404).forwarded = [] ∧
    (authRWWrite ⟨500, 3, [3], []⟩ 2).forwarded = [] ∧
    (loggerRWWrite ⟨0, 0, [], []⟩ 5).forwarded = [] :=
  ⟨(responseWriter_amended ⟨500, 0, [], []⟩ 404 0).1 (by decide),
   (responseWriter_amended ⟨500, 3, [3], []⟩ 404 2).2.1 (by decide) (by decide),
   (responseWriter_amended ⟨0, 0, [], []⟩ 0 5).2.2.2.2.2.2⟩

end MinioApi
